import Mathlib

/-!
Verification of the qubes-desktop-linux-menu specification against a shallow
embedding of `src/qubes_menu/custom_widgets.py` and `src/qubes_menu/appmenu.py`.

Each Python class whose behaviour the claims mention is embedded as a Lean
state record, and each method as a pure state-transition function translated
line by line from the source. GTK signal handlers become events fed into the
transition functions; GTK side effects on the containing list box (sort/filter
invalidation, row selection) are recorded both in an explicit parent state and
in an operation trace.
-/

namespace QubesMenu

/-! ### SelfAwareMenu (custom_widgets.py, lines 99-117)

`SelfAwareMenu` keeps the class-level integer `OPEN_MENUS`; the `realize`
signal handler `_add_to_open` executes `OPEN_MENUS += 1` and the `deactivate`
handler `_remove_from_open` executes `OPEN_MENUS -= 1`. We model the stream of
GTK signals delivered to instances of the class as a list of events tagged
with the identity of the menu widget that received them. -/

/-- A GTK signal delivered to a `SelfAwareMenu` instance, tagged with the
identity of that instance. -/
inductive MenuEvent
  | realize (id : Nat)
  | deactivate (id : Nat)
  deriving DecidableEq

/-- One signal-handler execution: `_add_to_open` does `OPEN_MENUS += 1`,
`_remove_from_open` does `OPEN_MENUS -= 1` (custom_widgets.py 111-117). -/
def menuStep (c : Int) : MenuEvent → Int
  | .realize _ => c + 1
  | .deactivate _ => c - 1

/-- Value of `SelfAwareMenu.OPEN_MENUS` after a sequence of signals, starting
from counter value `c`. -/
def openMenus (c : Int) (evs : List MenuEvent) : Int :=
  evs.foldl menuStep c

/-- The set of currently open menus after a sequence of signals, starting from
the set `s`: `realize` opens a menu, `deactivate` closes it. -/
def finalOpen (s : Finset Nat) : List MenuEvent → Finset Nat
  | [] => s
  | .realize id :: rest => finalOpen (insert id s) rest
  | .deactivate id :: rest => finalOpen (s.erase id) rest

/-- A signal sequence is valid (each menu is deactivated at most once after
being realized) when, with `s` the set of currently open menus, every
`deactivate` hits a currently open menu and every `realize` hits a menu that
is not currently open. -/
def validSteps (s : Finset Nat) : List MenuEvent → Bool
  | [] => true
  | .realize id :: rest => !(decide (id ∈ s)) && validSteps (insert id s) rest
  | .deactivate id :: rest => decide (id ∈ s) && validSteps (s.erase id) rest

lemma validSteps_prefix : ∀ (p evs : List MenuEvent) (s : Finset Nat),
    p <+: evs → validSteps s evs = true → validSteps s p = true := by
  intro p
  induction p with
  | nil => intro evs s _ _; rfl
  | cons e p' ih =>
    intro evs s hpre hval
    obtain ⟨t, ht⟩ := hpre
    subst ht
    cases e with
    | realize id =>
      simp only [validSteps, Bool.and_eq_true] at hval ⊢
      exact ⟨hval.1, ih _ _ ⟨t, rfl⟩ hval.2⟩
    | deactivate id =>
      simp only [validSteps, Bool.and_eq_true] at hval ⊢
      exact ⟨hval.1, ih _ _ ⟨t, rfl⟩ hval.2⟩

lemma openMenus_eq_card : ∀ (evs : List MenuEvent) (s : Finset Nat),
    validSteps s evs = true →
    openMenus (s.card : Int) evs = ((finalOpen s evs).card : Int) := by
  intro evs
  induction evs with
  | nil => intro s _; rfl
  | cons e rest ih =>
    intro s hval
    cases e with
    | realize id =>
      simp only [validSteps, Bool.and_eq_true, Bool.not_eq_true',
        decide_eq_false_iff_not] at hval
      have hcard : ((insert id s).card : Int) = (s.card : Int) + 1 := by
        rw [Finset.card_insert_of_not_mem hval.1]; push_cast; ring
      have := ih (insert id s) hval.2
      rw [hcard] at this
      simpa [openMenus, finalOpen, menuStep] using this
    | deactivate id =>
      simp only [validSteps, Bool.and_eq_true, decide_eq_true_eq] at hval
      have hpos : 1 ≤ s.card := Finset.card_pos.mpr ⟨id, hval.1⟩
      have hcard : ((s.erase id).card : Int) = (s.card : Int) - 1 := by
        rw [Finset.card_erase_of_mem hval.1]
        omega
      have := ih (s.erase id) hval.2
      rw [hcard] at this
      simpa [openMenus, finalOpen, menuStep] using this

/-- Claim C1: `SelfAwareMenu` maintains the shared class-level counter
`OPEN_MENUS`: `realize` increments it by one, `deactivate` decrements it by
one, so for every valid signal sequence starting from zero (each menu
deactivated at most once after being realized), `OPEN_MENUS` equals the number
of currently open menus, and on every prefix of the sequence it is
non-negative. -/
theorem selfAwareMenu_open_menus_correct (evs : List MenuEvent)
    (h : validSteps ∅ evs = true) :
    openMenus 0 evs = ((finalOpen ∅ evs).card : Int) ∧
    ∀ p, p <+: evs → 0 ≤ openMenus 0 p := by
  have h0 : (((∅ : Finset Nat).card : Int)) = 0 := by simp
  constructor
  · have := openMenus_eq_card evs ∅ h
    rwa [h0] at this
  · intro p hp
    have hvp := validSteps_prefix p evs ∅ hp h
    have := openMenus_eq_card p ∅ hvp
    rw [h0] at this
    rw [this]
    exact Int.natCast_nonneg _

/-- Witness for C1 at the concrete signal sequence
[realize 0, realize 1, deactivate 0]: the counter ends at 1, the number of
open menus. -/
theorem selfAwareMenu_open_menus_correct_witness :
    openMenus 0
        [MenuEvent.realize 0, MenuEvent.realize 1, MenuEvent.deactivate 0] =
      ((finalOpen ∅
        [MenuEvent.realize 0, MenuEvent.realize 1,
          MenuEvent.deactivate 0]).card : Int) :=
  (selfAwareMenu_open_menus_correct
    [MenuEvent.realize 0, MenuEvent.realize 1, MenuEvent.deactivate 0]
    (by decide)).1

/-! ### VMEntry data carrier and the Gtk style context

`VMEntry` (imported from `vm_manager`) is the data object a `VMRow` renders;
the fields below are exactly the attributes `custom_widgets.py` reads from it.
A Gtk style context is a set of CSS class names; `add_class` adds a class if
absent and `remove_class` removes it. Python truthiness of the optional
string `parent_vm` is `truthy`: `None` and the empty string are falsy. -/

/-- The attributes of a `VMEntry` read by `custom_widgets.py`: its name, its
power state string (compared against the literal `Running` in
`update_style`), the optional parent-VM name, the dispvm-template flag, the
network flag and the derived icon/sort names. -/
structure VMEntry where
  vm_name : String
  power_state : String
  parent_vm : Option String
  is_dispvm_template : Bool
  has_network : Bool
  vm_icon_name : String
  sort_name : String
  deriving DecidableEq

/-- Python truthiness of an optional string: `None` and `''` are falsy. -/
def truthy : Option String → Bool
  | none => false
  | some s => !s.isEmpty

/-- `Gtk.StyleContext.add_class`: adds a CSS class if not already present. -/
def add_class (cs : List String) (c : String) : List String :=
  if c ∈ cs then cs else cs ++ [c]

/-- `Gtk.StyleContext.remove_class`: removes a CSS class. -/
def remove_class (cs : List String) (c : String) : List String :=
  cs.filter (fun x => x ≠ c)

lemma mem_add_class_self (cs : List String) (c : String) :
    c ∈ add_class cs c := by
  unfold add_class
  split
  · assumption
  · simp

lemma mem_add_class_iff (cs : List String) (c d : String) :
    d ∈ add_class cs c ↔ (d ∈ cs ∨ d = c) := by
  unfold add_class
  split
  · rename_i h
    constructor
    · exact Or.inl
    · rintro (hd | rfl) <;> [exact hd; exact h]
  · simp [or_comm]

lemma not_mem_remove_class (cs : List String) (c : String) :
    c ∉ remove_class cs c := by
  simp [remove_class]

lemma mem_remove_class_iff (cs : List String) (c d : String) :
    d ∈ remove_class cs c ↔ (d ∈ cs ∧ d ≠ c) := by
  simp [remove_class]

/-! ### VMRow.update_style (custom_widgets.py, lines 215-232)

Translated line by line: the first `if/elif/else` chain dispatches on
`is_dispvm_template` and on the truthiness of `parent_vm`; the second block
runs only when `update_power_state` is true and compares `power_state` with
the string `Running`. -/

/-- `VMRow.update_style`: updates the row's CSS classes from the entry's type
and (optionally) its power state. -/
def update_style (e : VMEntry) (update_power_state : Bool)
    (cs : List String) : List String :=
  let cs1 :=
    if e.is_dispvm_template then
      add_class cs "dvm_template_entry"
    else if truthy e.parent_vm then
      add_class cs "dispvm_entry"
    else
      remove_class (remove_class cs "dispvm_entry") "dvm_template_entry"
  if update_power_state then
    if e.power_state = "Running" then
      add_class cs1 "running_vm"
    else
      remove_class cs1 "running_vm"
  else cs1

lemma running_mem_update_style (e : VMEntry) (cs : List String) :
    "running_vm" ∈ update_style e true cs ↔ e.power_state = "Running" := by
  by_cases hp : e.power_state = "Running" <;>
    simp [update_style, hp, mem_add_class_iff, mem_remove_class_iff]

/-! ### VMRow state (custom_widgets.py, lines 184-270)

A `VMRow` lives in a `Gtk.ListBox`; the methods below touch, besides the
row's own widgets, the parent list's sort order, filter and selection. Both
the resulting parent state and the trace of parent operations are made
explicit, so that "which calls re-sort / re-select" is provable. -/

/-- The part of the containing `Gtk.ListBox` state that `VMRow` methods
touch: generation counters bumped by `invalidate_sort` / `invalidate_filter`,
and the currently selected row. -/
structure ParentState where
  sortGen : Nat
  filterGen : Nat
  selected : Option Nat
  deriving DecidableEq

/-- The widget state of one `VMRow`: its CSS classes, the pixbuf loaded into
`icon_img`, whether the dispvm-child icon was packed in `__init__`, and the
label text. -/
structure RowState where
  classes : List String
  icon : Option String
  dispvm_icon : Bool
  label : String
  deriving DecidableEq

/-- A `VMRow` together with its (optional) parent list box and its identity
within that list. -/
structure RowCtx where
  row : RowState
  parent : Option ParentState
  rowId : Nat
  deriving DecidableEq

/-- An operation a `VMRow` method performs on its parent list box. -/
inductive ParentOp
  | invalidateSort
  | invalidateFilter
  | selectNone
  | selectRow (id : Nat)
  deriving DecidableEq

/-- `Gtk.ListBoxRow.is_selected`: true when the row's parent exists and has
this row selected. -/
def is_selected (ctx : RowCtx) : Bool :=
  match ctx.parent with
  | none => false
  | some p => decide (p.selected = some ctx.rowId)

/-- `VMRow.update_contents` (custom_widgets.py 234-262), translated block by
block: the `update_label` block reloads the icon pixbuf; the
`update_type or update_power_state` block calls `update_style` and, if a
parent exists, invalidates its sort and filter and clears its selection; the
`update_has_network` block, when the row is selected and has a parent,
deselects and reselects the row. Returns the new state and the trace of
parent operations. -/
def update_contents (e : VMEntry)
    (update_power_state update_label update_has_network update_type : Bool)
    (ctx : RowCtx) : RowCtx × List ParentOp :=
  let ctx1 :=
    if update_label then
      { ctx with row := { ctx.row with icon := some e.vm_icon_name } }
    else ctx
  let step2 : RowCtx × List ParentOp :=
    if update_type || update_power_state then
      let ctx' := { ctx1 with row := { ctx1.row with
        classes := update_style e update_power_state ctx1.row.classes } }
      match ctx'.parent with
      | some p =>
        let p' : ParentState :=
          { sortGen := p.sortGen + 1, filterGen := p.filterGen + 1,
            selected := none }
        ({ ctx' with parent := some p' },
         [ParentOp.invalidateSort, ParentOp.invalidateFilter,
          ParentOp.selectNone])
      | none => (ctx', [])
    else (ctx1, [])
  let ctx2 := step2.1
  let step3 : RowCtx × List ParentOp :=
    if update_has_network then
      match ctx2.parent with
      | some p =>
        if p.selected = some ctx2.rowId then
          ({ ctx2 with parent := some { p with selected := some ctx2.rowId } },
           [ParentOp.selectNone, ParentOp.selectRow ctx2.rowId])
        else (ctx2, [])
      | none => (ctx2, [])
    else (ctx2, [])
  (step3.1, step2.2 ++ step3.2)

/-- `VMRow.__init__` (custom_widgets.py 188-213): starts from a fresh
`HoverListBox` with the `vm_entry` CSS class, packs the dispvm-child icon
exactly when `vm_entry.parent_vm` is truthy, sets the label to the VM name,
and calls `update_contents` with all four flags set. Total: construction
cannot fail. -/
def vmRowInit (e : VMEntry) (parent : Option ParentState) (rid : Nat) :
    RowCtx × List ParentOp :=
  let row0 : RowState :=
    { classes := ["vm_entry"], icon := none,
      dispvm_icon := truthy e.parent_vm, label := e.vm_name }
  update_contents e true true true true
    { row := row0, parent := parent, rowId := rid }

lemma dispvm_mem_update_style (e : VMEntry) (ups : Bool) (cs : List String) :
    ("dispvm_entry" ∈ update_style e ups cs ↔
      (if e.is_dispvm_template then "dispvm_entry" ∈ cs
       else truthy e.parent_vm = true)) := by
  by_cases hd : e.is_dispvm_template <;> by_cases ht : truthy e.parent_vm <;>
    cases ups <;> by_cases hp : e.power_state = "Running" <;>
    simp [update_style, hd, ht, hp, mem_add_class_iff, mem_remove_class_iff]

lemma dvm_template_mem_update_style (e : VMEntry) (ups : Bool)
    (cs : List String) :
    ("dvm_template_entry" ∈ update_style e ups cs ↔
      (if e.is_dispvm_template then True
       else if truthy e.parent_vm then "dvm_template_entry" ∈ cs
       else False)) := by
  by_cases hd : e.is_dispvm_template <;> by_cases ht : truthy e.parent_vm <;>
    cases ups <;> by_cases hp : e.power_state = "Running" <;>
    simp [update_style, hd, ht, hp, mem_add_class_iff, mem_remove_class_iff]

lemma update_contents_classes (e : VMEntry) (ul uhn ut : Bool) (ctx : RowCtx) :
    (update_contents e true ul uhn ut ctx).1.row.classes =
      update_style e true ctx.row.classes := by
  rcases ctx with ⟨row, parent, rid⟩
  cases ul <;> cases uhn <;> rcases parent with _ | p <;>
    simp [update_contents]

/-- Claim C3: after `VMRow.update_contents` with `update_power_state=True`
(so `update_style` runs with `update_power_state=True`), the row carries the
`running_vm` style class iff the entry's `power_state` is the string
`Running`; in particular the `Halted`, `Starting` and `Stopping` states are
rendered as not running. -/
theorem vmRow_running_style (e : VMEntry) (ul uhn ut : Bool) (ctx : RowCtx) :
    ("running_vm" ∈ (update_contents e true ul uhn ut ctx).1.row.classes ↔
      e.power_state = "Running") ∧
    (e.power_state = "Halted" ∨ e.power_state = "Starting" ∨
        e.power_state = "Stopping" →
      "running_vm" ∉ (update_contents e true ul uhn ut ctx).1.row.classes) := by
  rw [update_contents_classes, running_mem_update_style]
  refine ⟨Iff.rfl, ?_⟩
  rintro (h | h | h) hr <;> rw [h] at hr <;> exact absurd hr (by decide)

/-- Concrete test fixture: a halted persistent VM entry. -/
def haltedEntry : VMEntry :=
  { vm_name := "work", power_state := "Halted", parent_vm := none,
    is_dispvm_template := false, has_network := true,
    vm_icon_name := "appvm-black", sort_name := "work" }

/-- Concrete test fixture: a running disposable VM entry with a parent. -/
def dispEntry : VMEntry :=
  { vm_name := "disp1", power_state := "Running",
    parent_vm := some "dvm-template", is_dispvm_template := false,
    has_network := true, vm_icon_name := "dispvm-red",
    sort_name := "disp1" }

/-- Concrete test fixture: a fresh row widget state. -/
def baseRow : RowState :=
  { classes := ["vm_entry"], icon := none, dispvm_icon := false,
    label := "work" }

/-- Concrete test fixture: a list-box parent with row 0 selected. -/
def baseParent : ParentState :=
  { sortGen := 0, filterGen := 0, selected := some 0 }

/-- Concrete test fixture: a row in a list box. -/
def baseCtx : RowCtx :=
  { row := baseRow, parent := some baseParent, rowId := 0 }

/-- Witness for C3 at a concrete halted entry in a concrete row: the
`running_vm` class is absent after the update. -/
theorem vmRow_running_style_witness :
    "running_vm" ∉
      (update_contents haltedEntry true true true true
        baseCtx).1.row.classes :=
  (vmRow_running_style haltedEntry true true true baseCtx).2 (Or.inl rfl)

/-- A sequence of `VMRow.update_style` calls applied to a style context:
each element carries the `VMEntry` state seen by that call and its
`update_power_state` argument. -/
def applyStyleCalls (cs : List String) : List (VMEntry × Bool) → List String
  | [] => cs
  | (e, ups) :: rest => applyStyleCalls (update_style e ups cs) rest

lemma dvm_template_stays_out :
    ∀ (steps : List (VMEntry × Bool)) (cs : List String),
    (∀ p ∈ steps, (p.1).is_dispvm_template = false) →
    "dvm_template_entry" ∉ cs →
    "dvm_template_entry" ∉ applyStyleCalls cs steps := by
  intro steps
  induction steps with
  | nil => intro cs _ hout; exact hout
  | cons x rest ih =>
    intro cs hall hout
    rcases x with ⟨e, ups⟩
    have he : e.is_dispvm_template = false :=
      hall (e, ups) (List.mem_cons_self _ _)
    have hstep : "dvm_template_entry" ∉ update_style e ups cs := by
      rw [dvm_template_mem_update_style, he]
      by_cases ht : truthy e.parent_vm <;> simp [ht, hout]
    exact ih _ (fun p hp => hall p (List.mem_cons_of_mem _ hp)) hstep

lemma dvm_template_gets_in :
    ∀ (steps : List (VMEntry × Bool)) (cs : List String),
    (∀ p ∈ steps, (p.1).is_dispvm_template = true) →
    ("dvm_template_entry" ∈ cs ∨ steps ≠ []) →
    "dvm_template_entry" ∈ applyStyleCalls cs steps := by
  intro steps
  induction steps with
  | nil =>
    intro cs _ hin
    rcases hin with hin | hne
    · exact hin
    · exact absurd rfl hne
  | cons x rest ih =>
    intro cs hall _
    rcases x with ⟨e, ups⟩
    have he : e.is_dispvm_template = true :=
      hall (e, ups) (List.mem_cons_self _ _)
    have hstep : "dvm_template_entry" ∈ update_style e ups cs := by
      rw [dvm_template_mem_update_style, he]
      simp
    exact ih _ (fun p hp => hall p (List.mem_cons_of_mem _ hp)) (Or.inl hstep)

lemma dispvm_preserved :
    ∀ (steps : List (VMEntry × Bool)) (cs : List String),
    (∀ p ∈ steps, (p.1).is_dispvm_template = true) →
    ("dispvm_entry" ∈ applyStyleCalls cs steps ↔ "dispvm_entry" ∈ cs) := by
  intro steps
  induction steps with
  | nil => intro cs _; exact Iff.rfl
  | cons x rest ih =>
    intro cs hall
    rcases x with ⟨e, ups⟩
    have he : e.is_dispvm_template = true :=
      hall (e, ups) (List.mem_cons_self _ _)
    have hstep : "dispvm_entry" ∈ update_style e ups cs ↔
        "dispvm_entry" ∈ cs := by
      rw [dispvm_mem_update_style, he]
      simp
    calc "dispvm_entry" ∈ applyStyleCalls (update_style e ups cs) rest
        ↔ "dispvm_entry" ∈ update_style e ups cs :=
          ih _ (fun p hp => hall p (List.mem_cons_of_mem _ hp))
      _ ↔ "dispvm_entry" ∈ cs := hstep

lemma dispvm_tracks_last :
    ∀ (steps : List (VMEntry × Bool)) (cs : List String)
      (last : VMEntry × Bool),
    steps.getLast? = some last →
    (∀ p ∈ steps, (p.1).is_dispvm_template = false) →
    ("dispvm_entry" ∈ applyStyleCalls cs steps ↔
      truthy last.1.parent_vm = true) := by
  intro steps
  induction steps with
  | nil => intro cs last h; simp at h
  | cons x rest ih =>
    intro cs last hlast hall
    cases rest with
    | nil =>
      have hx : x = last := by
        simpa using hlast
      subst hx
      rcases x with ⟨e, ups⟩
      have he : e.is_dispvm_template = false :=
        hall (e, ups) (List.mem_cons_self _ _)
      show "dispvm_entry" ∈ update_style e ups cs ↔ _
      rw [dispvm_mem_update_style, he]
      simp
    | cons y t =>
      have hlast' : (y :: t).getLast? = some last := by
        rwa [List.getLast?_cons_cons] at hlast
      rcases x with ⟨e, ups⟩
      exact ih _ last hlast'
        (fun p hp => hall p (List.mem_cons_of_mem _ hp))

/-- Claim C4: for a row whose entry has a fixed `is_dispvm_template` flag,
after any non-empty sequence of `update_style` calls starting from a style
context carrying neither class, the row carries `dvm_template_entry` iff the
flag is set, carries `dispvm_entry` iff the flag is unset and the entry's
`parent_vm` was truthy at the last call, and never carries both classes at
once; a plain persistent VM (neither flag nor parent) carries neither. -/
theorem vmRow_style_variant_exclusive (b : Bool)
    (steps : List (VMEntry × Bool)) (cs : List String)
    (last : VMEntry × Bool)
    (hlast : steps.getLast? = some last)
    (hb : ∀ p ∈ steps, (p.1).is_dispvm_template = b)
    (h1 : "dvm_template_entry" ∉ cs) (h2 : "dispvm_entry" ∉ cs) :
    ("dvm_template_entry" ∈ applyStyleCalls cs steps ↔ b = true) ∧
    ("dispvm_entry" ∈ applyStyleCalls cs steps ↔
      (b = false ∧ truthy last.1.parent_vm = true)) ∧
    ¬("dvm_template_entry" ∈ applyStyleCalls cs steps ∧
      "dispvm_entry" ∈ applyStyleCalls cs steps) := by
  have hne : steps ≠ [] := by
    intro h
    rw [h] at hlast
    simp at hlast
  cases b with
  | true =>
    have hin := dvm_template_gets_in steps cs hb (Or.inr hne)
    have hdis := (dispvm_preserved steps cs hb)
    refine ⟨⟨fun _ => rfl, fun _ => hin⟩, ?_, ?_⟩
    · constructor
      · intro hmem
        exact absurd (hdis.mp hmem) h2
      · rintro ⟨h, _⟩
        exact absurd h (by decide)
    · rintro ⟨_, hmem⟩
      exact absurd (hdis.mp hmem) h2
  | false =>
    have hout := dvm_template_stays_out steps cs hb h1
    have htrack := dispvm_tracks_last steps cs last hlast hb
    refine ⟨?_, ?_, ?_⟩
    · constructor
      · intro hmem; exact absurd hmem hout
      · intro h; exact absurd h (by decide)
    · rw [htrack]
      constructor
      · intro h; exact ⟨rfl, h⟩
      · rintro ⟨_, h⟩; exact h
    · rintro ⟨hmem, _⟩
      exact absurd hmem hout

/-- Witness for C4: one `update_style` call on a disposable VM entry (flag
unset, truthy parent) starting from a bare `vm_entry` context puts the row in
the `dispvm_entry` state. -/
theorem vmRow_style_variant_exclusive_witness :
    "dispvm_entry" ∈ applyStyleCalls ["vm_entry"] [(dispEntry, true)] ↔
      (false = false ∧ truthy dispEntry.parent_vm = true) :=
  (vmRow_style_variant_exclusive false [(dispEntry, true)] ["vm_entry"]
    (dispEntry, true) rfl
    (by intro p hp; simp at hp; rw [hp]; rfl)
    (by decide) (by decide)).2.1

lemma reselect_eq (p : ParentState) (rid : Nat)
    (h : p.selected = some rid) :
    ({ p with selected := some rid } : ParentState) = p := by
  rw [← h]

/-- Claim C5: `VMRow.update_contents` recomputes only the presentation
belonging to the flagged change tags: with `update_label=False` the icon
pixbuf is unchanged; with `update_type=False` and `update_power_state=False`
the style classes and the parent list's sort/filter/selection state are
unchanged; with `update_has_network=False` no re-selection is performed; with
all four flags false none of these change and no parent operation runs. -/
theorem vmRow_update_contents_frame (e : VMEntry) (ups ul uhn ut : Bool)
    (ctx : RowCtx) :
    (ul = false →
      (update_contents e ups ul uhn ut ctx).1.row.icon = ctx.row.icon) ∧
    (ut = false → ups = false →
      (update_contents e ups ul uhn ut ctx).1.row.classes =
          ctx.row.classes ∧
      (update_contents e ups ul uhn ut ctx).1.parent = ctx.parent) ∧
    (uhn = false → ∀ i,
      ParentOp.selectRow i ∉ (update_contents e ups ul uhn ut ctx).2) ∧
    (ups = false → ul = false → uhn = false → ut = false →
      update_contents e ups ul uhn ut ctx = (ctx, [])) := by
  rcases ctx with ⟨row, parent, rid⟩
  cases ups <;> cases ul <;> cases uhn <;> cases ut <;>
    rcases parent with _ | p <;>
    simp [update_contents] <;>
    by_cases hsel : p.selected = some rid <;>
    simp [hsel, reselect_eq]

/-- Witness for C5 at a concrete entry and row with all four flags false:
the call is a no-op producing no parent operations. -/
theorem vmRow_update_contents_frame_witness :
    update_contents haltedEntry false false false false baseCtx =
      (baseCtx, []) :=
  (vmRow_update_contents_frame haltedEntry false false false false
    baseCtx).2.2.2 rfl rfl rfl rfl

lemma update_contents_dispvm_icon (e : VMEntry) (ups ul uhn ut : Bool)
    (ctx : RowCtx) :
    (update_contents e ups ul uhn ut ctx).1.row.dispvm_icon =
      ctx.row.dispvm_icon := by
  rcases ctx with ⟨row, parent, rid⟩
  cases ups <;> cases ul <;> cases uhn <;> cases ut <;>
    rcases parent with _ | p <;>
    simp [update_contents] <;>
    by_cases hsel : p.selected = some rid <;>
    simp [hsel]

/-- Claim C6: constructing a `VMRow` for an entry whose `parent_vm` is absent
(`None` or empty, i.e. falsy) succeeds (the embedding `vmRowInit` is a total
function), packs the dispvm-child icon exactly when `parent_vm` is truthy,
and applies no `dispvm_entry` styling when the parent is absent. -/
theorem vmRow_init_graceful (e : VMEntry) (parent : Option ParentState)
    (rid : Nat) :
    ((vmRowInit e parent rid).1.row.dispvm_icon = truthy e.parent_vm) ∧
    (truthy e.parent_vm = false →
      "dispvm_entry" ∉ (vmRowInit e parent rid).1.row.classes) := by
  constructor
  · rw [vmRowInit, update_contents_dispvm_icon]
  · intro hf
    rw [vmRowInit, update_contents_classes]
    rw [dispvm_mem_update_style]
    by_cases hd : e.is_dispvm_template <;> simp [hd, hf]

/-- Witness for C6: a halted persistent entry with `parent_vm = None` gets no
`dispvm_entry` class from row construction. -/
theorem vmRow_init_graceful_witness :
    "dispvm_entry" ∉
      (vmRowInit haltedEntry (some baseParent) 0).1.row.classes :=
  (vmRow_init_graceful haltedEntry (some baseParent) 0).2 rfl

/-! ### NetworkIndicator (custom_widgets.py, lines 120-156)

Visibility state of the indicator box and its two images. Gtk widgets are
created not visible until shown, and both images have `set_no_show_all`, so
all three start hidden. -/

/-- Visibility state of a `NetworkIndicator` box and its two images. -/
structure NetworkIndicator where
  boxVisible : Bool
  onVisible : Bool
  offVisible : Bool
  deriving DecidableEq

/-- `NetworkIndicator.__init__`: the box and both images start hidden. -/
def networkIndicatorInit : NetworkIndicator :=
  { boxVisible := false, onVisible := false, offVisible := false }

/-- `NetworkIndicator.set_network_state` (custom_widgets.py 149-156):
`self.set_visible(True)`, `network_on.set_visible(state)`,
`network_off.set_visible(not state)`. -/
def set_network_state (ni : NetworkIndicator) (state : Bool) :
    NetworkIndicator :=
  { ni with boxVisible := true, onVisible := state, offVisible := !state }

/-- Claim C7: after `set_network_state(state)` from any prior state, the box
is visible, `network_on` is visible iff `state`, `network_off` is visible iff
`not state`, exactly one of the two images is visible, and a repeated call
with the same argument changes nothing. -/
theorem networkIndicator_reflects_state (ni : NetworkIndicator)
    (state : Bool) :
    ((set_network_state ni state).boxVisible = true) ∧
    ((set_network_state ni state).onVisible = true ↔ state = true) ∧
    ((set_network_state ni state).offVisible = true ↔ state = false) ∧
    ((set_network_state ni state).onVisible ≠
      (set_network_state ni state).offVisible) ∧
    (set_network_state (set_network_state ni state) state =
      set_network_state ni state) := by
  cases state <;> simp [set_network_state]

/-! ### AppMenu (appmenu.py)

`AppMenu` is a `Gtk.Application`; the state below carries the attributes set
in `__init__` and mutated by `do_activate`, `perform_setup`, `hide_menu` and
`_focus_out`, the visibility of the main window, the notebook page, and
instrumentation counters (number of `perform_setup` runs, number of
`listen_for_events` invocations, number of search-page resets). The asyncio
layer is embedded as: a task list, a wait policy, and task behaviours
(`none` = still running, `some o` = completed with outcome `o`). -/

/-- Outcome of a completed asyncio task. -/
inductive TaskOutcome
  | ok
  | error (e : Nat)
  deriving DecidableEq

/-- `return_when` argument of `asyncio.wait`. -/
inductive ReturnWhen
  | firstException
  | allCompleted
  deriving DecidableEq

/-- A task placed into `self.tasks`; `do_activate` only ever creates
`dispatcher.listen_for_events()`. -/
inductive TaskSpec
  | listenForEvents
  deriving DecidableEq

/-- Whether a task behaviour is a raised exception. -/
def isErr : Option TaskOutcome → Bool
  | some (TaskOutcome.error _) => true
  | _ => false

/-- Whether a task behaviour is a completed task. -/
def isDone : Option TaskOutcome → Bool
  | some _ => true
  | none => false

/-- `asyncio.wait(tasks, return_when=rw)` completes: with `FIRST_EXCEPTION`,
as soon as some task raises (or all complete); with `ALL_COMPLETED`, when all
complete. -/
def waitCompletes (rw : ReturnWhen) (ts : List (Option TaskOutcome)) : Bool :=
  match rw with
  | .firstException => ts.any isErr || ts.all isDone
  | .allCompleted => ts.all isDone

/-- The outcomes of the completed tasks, available to the caller of
`asyncio.wait` in its `done` set: an uncaught task exception is surfaced
there, not swallowed. -/
def doneOutcomes (ts : List (Option TaskOutcome)) : List TaskOutcome :=
  ts.filterMap id

/-- The behaviours of a list of started tasks under a behaviour assignment. -/
def taskBehavior (beh : TaskSpec → Option TaskOutcome)
    (ts : List TaskSpec) : List (Option TaskOutcome) :=
  ts.map beh

/-- The mutable `AppMenu` attributes touched by the embedded methods. -/
structure AppMenuState where
  primary : Bool
  keep_visible : Bool
  initial_page : Nat
  start_in_background : Bool
  hasMainWindow : Bool
  hasNotebook : Bool
  windowVisible : Bool
  notebookPage : Nat
  setupCount : Nat
  listenCount : Nat
  tasks : List TaskSpec
  waitPolicy : Option ReturnWhen
  searchResetCount : Nat
  deriving DecidableEq

/-- `AppMenu.hide_menu` (appmenu.py 172-181): always resets the search page
first, then hides the main window unless `keep_visible` is set. -/
def hide_menu (s : AppMenuState) : AppMenuState :=
  let s1 := { s with searchResetCount := s.searchResetCount + 1 }
  if !s1.keep_visible && s1.hasMainWindow then
    { s1 with windowVisible := false }
  else s1

/-- `AppMenu._focus_out` (appmenu.py 190-195): hides the menu on focus out
unless a right-click menu is open, i.e. only when
`SelfAwareMenu.OPEN_MENUS <= 0`. -/
def focus_out (openMenusCounter : Int) (s : AppMenuState) : AppMenuState :=
  if openMenusCounter ≤ 0 then hide_menu s else s

/-- An observable action performed by `do_activate`. -/
inductive ActOp
  | performSetup
  | showAll
  | initializeState
  | startListenerTask
  | waitTasks (rw : ReturnWhen)
  | setNotebookPage (n : Nat)
  | hideWindow
  | presentWindow
  deriving DecidableEq

/-- `AppMenu.do_activate` (appmenu.py 134-170), translated branch by branch.
First invocation (`not self.primary`): `perform_setup()` (which realizes the
main window and notebook), `self.primary = True`, `show_all` unless started
in background, `initialize_state()` (sets the notebook to the initial page
and re-initializes every page, including the search page), then starts the
single `listen_for_events` task and blocks on `asyncio.wait` with
`FIRST_EXCEPTION`. Later invocations only switch the notebook page and
toggle the main window between hidden and presented. -/
def do_activate (s : AppMenuState) : AppMenuState × List ActOp :=
  if !s.primary then
    let s1 := { s with setupCount := s.setupCount + 1,
                       hasMainWindow := true, hasNotebook := true }
    let s2 := { s1 with primary := true }
    let s3 :=
      if !s2.start_in_background then { s2 with windowVisible := true }
      else s2
    let showOps := if !s2.start_in_background then [ActOp.showAll] else []
    let s4 := { s3 with notebookPage := s3.initial_page,
                        searchResetCount := s3.searchResetCount + 1 }
    let s5 := { s4 with listenCount := s4.listenCount + 1,
                        tasks := [TaskSpec.listenForEvents],
                        waitPolicy := some ReturnWhen.firstException }
    (s5, ActOp.performSetup :: showOps ++
      [ActOp.initializeState, ActOp.startListenerTask,
       ActOp.waitTasks ReturnWhen.firstException])
  else
    let pageOps :=
      if s.hasNotebook then [ActOp.setNotebookPage s.initial_page] else []
    let s1 :=
      if s.hasNotebook then { s with notebookPage := s.initial_page } else s
    if s1.hasMainWindow then
      if s1.windowVisible && !s1.keep_visible then
        ({ s1 with windowVisible := false }, pageOps ++ [ActOp.hideWindow])
      else
        ({ s1 with windowVisible := true }, pageOps ++ [ActOp.presentWindow])
    else (s1, pageOps)

/-- Iterated `do_activate` invocations, collecting each invocation's trace. -/
def runActivations (s : AppMenuState) : Nat → AppMenuState × List (List ActOp)
  | 0 => (s, [])
  | Nat.succ n =>
    let r := do_activate s
    let rest := runActivations r.1 n
    (rest.1, r.2 :: rest.2)

/-- Concrete test fixture: a fully set-up `AppMenu` state. -/
def sampleAppState : AppMenuState :=
  { primary := true, keep_visible := false, initial_page := 1,
    start_in_background := false, hasMainWindow := true,
    hasNotebook := true, windowVisible := true, notebookPage := 1,
    setupCount := 1, listenCount := 1,
    tasks := [TaskSpec.listenForEvents],
    waitPolicy := some ReturnWhen.firstException, searchResetCount := 1 }

/-- Concrete test fixture: a freshly constructed `AppMenu` state, as left by
`AppMenu.__init__`. -/
def initialAppState : AppMenuState :=
  { primary := false, keep_visible := false, initial_page := 1,
    start_in_background := false, hasMainWindow := false,
    hasNotebook := false, windowVisible := false, notebookPage := 0,
    setupCount := 0, listenCount := 0, tasks := [],
    waitPolicy := none, searchResetCount := 0 }

/-- Claim C9: while at least one `SelfAwareMenu` is open
(`OPEN_MENUS > 0`), a focus-out event on the main window changes nothing;
when `OPEN_MENUS <= 0`, focus-out invokes `hide_menu`, which always resets
the search page first and hides the window iff `keep_visible` is false. -/
theorem appMenu_focus_out_open_menus (c : Int) (s : AppMenuState)
    (hw : s.hasMainWindow = true) :
    (0 < c → focus_out c s = s) ∧
    (c ≤ 0 →
      focus_out c s = hide_menu s ∧
      (hide_menu s).searchResetCount = s.searchResetCount + 1 ∧
      (hide_menu s).windowVisible =
        (if s.keep_visible then s.windowVisible else false)) := by
  constructor
  · intro hc
    rw [focus_out, if_neg (by omega)]
  · intro hc
    refine ⟨by rw [focus_out, if_pos hc], ?_, ?_⟩
    · by_cases hk : s.keep_visible <;> simp [hide_menu, hk, hw]
    · by_cases hk : s.keep_visible <;> simp [hide_menu, hk, hw]

/-- Witness for C9: with one menu open, focus-out on the sample state is a
no-op. -/
theorem appMenu_focus_out_open_menus_witness :
    focus_out 1 sampleAppState = sampleAppState :=
  (appMenu_focus_out_open_menus 1 sampleAppState rfl).1 (by decide)

lemma do_activate_primary (s : AppMenuState) (h : s.primary = true) :
    (do_activate s).1.primary = true ∧
    (do_activate s).1.setupCount = s.setupCount ∧
    (do_activate s).1.listenCount = s.listenCount ∧
    (do_activate s).1.initial_page = s.initial_page ∧
    ActOp.performSetup ∉ (do_activate s).2 ∧
    (∀ op ∈ (do_activate s).2,
      op = ActOp.setNotebookPage s.initial_page ∨ op = ActOp.hideWindow ∨
      op = ActOp.presentWindow) := by
  cases hn : s.hasNotebook <;> cases hwin : s.hasMainWindow <;>
    simp [do_activate, h, hn, hwin] <;> split_ifs <;> simp

lemma do_activate_first (s : AppMenuState) (h : s.primary = false) :
    (do_activate s).1.primary = true ∧
    (do_activate s).1.setupCount = s.setupCount + 1 ∧
    (do_activate s).1.listenCount = s.listenCount + 1 ∧
    (do_activate s).1.initial_page = s.initial_page ∧
    (do_activate s).1.tasks = [TaskSpec.listenForEvents] ∧
    (do_activate s).1.waitPolicy = some ReturnWhen.firstException ∧
    ActOp.performSetup ∈ (do_activate s).2 := by
  cases hb : s.start_in_background <;> simp [do_activate, h, hb]

lemma runActivations_primary (n : Nat) :
    ∀ (s : AppMenuState), s.primary = true →
    (runActivations s n).1.primary = true ∧
    (runActivations s n).1.setupCount = s.setupCount ∧
    (runActivations s n).1.listenCount = s.listenCount ∧
    (runActivations s n).1.initial_page = s.initial_page ∧
    (∀ t ∈ (runActivations s n).2, ActOp.performSetup ∉ t ∧
      ∀ op ∈ t, op = ActOp.setNotebookPage s.initial_page ∨
        op = ActOp.hideWindow ∨ op = ActOp.presentWindow) := by
  induction n with
  | zero =>
    intro s h
    exact ⟨h, rfl, rfl, rfl, by simp [runActivations]⟩
  | succ n ih =>
    intro s h
    obtain ⟨hp, hsc, hlc, hip, hns, hops⟩ := do_activate_primary s h
    obtain ⟨hp2, hsc2, hlc2, hip2, htr⟩ := ih (do_activate s).1 hp
    simp only [runActivations]
    refine ⟨hp2, by rw [hsc2, hsc], by rw [hlc2, hlc],
      by rw [hip2, hip], ?_⟩
    intro t ht
    rcases List.mem_cons.mp ht with rfl | ht'
    · exact ⟨hns, hops⟩
    · have := htr t ht'
      rw [hip] at this
      exact this

/-- Claim C10: setup runs exactly once per application instance: starting
from a state with the `primary` flag unset, the first `do_activate`
invocation performs the setup and sets `primary`; across the whole sequence
of `n + 1` invocations the setup counter rises by exactly one, and every
invocation after the first performs no setup — only a notebook page switch
and a hide/present toggle of the main window. -/
theorem appMenu_setup_runs_once (s : AppMenuState) (n : Nat)
    (h : s.primary = false) :
    ((do_activate s).1.primary = true ∧
      ActOp.performSetup ∈ (do_activate s).2) ∧
    (runActivations s (n + 1)).1.setupCount = s.setupCount + 1 ∧
    (∀ t ∈ ((runActivations s (n + 1)).2).tail,
      ActOp.performSetup ∉ t ∧
      ∀ op ∈ t, op = ActOp.setNotebookPage s.initial_page ∨
        op = ActOp.hideWindow ∨ op = ActOp.presentWindow) := by
  obtain ⟨hp, hsc, hlc, hip, htasks, hwp, hmem⟩ := do_activate_first s h
  obtain ⟨hp2, hsc2, hlc2, hip2, htr⟩ :=
    runActivations_primary n (do_activate s).1 hp
  refine ⟨⟨hp, hmem⟩, ?_, ?_⟩
  · simp only [runActivations]
    rw [hsc2, hsc]
  · simp only [runActivations, List.tail_cons]
    intro t ht
    have := htr t ht
    rw [hip] at this
    exact this

/-- Witness for C10: two invocations from the fresh initial state leave the
setup counter at exactly one. -/
theorem appMenu_setup_runs_once_witness :
    (runActivations initialAppState 2).1.setupCount =
      initialAppState.setupCount + 1 :=
  (appMenu_setup_runs_once initialAppState 1 rfl).2.1

/-- Claim C2: loss of the event-bus connection is surfaced, not silently
retried: the first `do_activate` starts exactly one listener task
(`dispatcher.listen_for_events`) and blocks on `asyncio.wait` with
`return_when=FIRST_EXCEPTION`; whenever that listener raises, the wait
completes and the exception is among the completed outcomes available to the
owning process; across any number of further activations the listener is
never restarted. -/
theorem appMenu_listener_failure_surfaced (s : AppMenuState) (n : Nat)
    (h : s.primary = false) :
    (do_activate s).1.tasks = [TaskSpec.listenForEvents] ∧
    (do_activate s).1.waitPolicy = some ReturnWhen.firstException ∧
    (runActivations s (n + 1)).1.listenCount = s.listenCount + 1 ∧
    (∀ (beh : TaskSpec → Option TaskOutcome) (e : Nat),
      beh TaskSpec.listenForEvents = some (TaskOutcome.error e) →
      waitCompletes ReturnWhen.firstException
          (taskBehavior beh (do_activate s).1.tasks) = true ∧
      TaskOutcome.error e ∈
        doneOutcomes (taskBehavior beh (do_activate s).1.tasks)) := by
  obtain ⟨hp, hsc, hlc, hip, htasks, hwp, hmem⟩ := do_activate_first s h
  obtain ⟨hp2, hsc2, hlc2, hip2, htr⟩ :=
    runActivations_primary n (do_activate s).1 hp
  refine ⟨htasks, hwp, ?_, ?_⟩
  · simp only [runActivations]
    rw [hlc2, hlc]
  · intro beh e hbeh
    rw [htasks]
    refine ⟨?_, ?_⟩
    · simp [taskBehavior, waitCompletes, hbeh, isErr]
    · simp [taskBehavior, doneOutcomes, hbeh]

/-- Witness for C2: from the fresh initial state, after the first activation
the task list is exactly the one listener. -/
theorem appMenu_listener_failure_surfaced_witness :
    (do_activate initialAppState).1.tasks = [TaskSpec.listenForEvents] :=
  (appMenu_listener_failure_surfaced initialAppState 0 rfl).1

/-! ### AppMenu.perform_setup model sharing (appmenu.py, lines 209-248)

`perform_setup` constructs `DesktopFileManager(self.qapp)` once and
`VMManager(self.qapp, self.dispatcher)` once, then builds the four page
handlers, passing those same objects. Object construction is modelled by an
allocator handing out fresh identities, so "the same instance" is "the same
identity". `SettingsPage` consumes only the desktop-entry model. -/

/-- A page handler together with the identities of the shared model objects
it received. -/
structure PageHandler where
  name : String
  dfmRef : Option Nat
  vmManagerRef : Option Nat
  deriving DecidableEq

/-- The model objects created by `perform_setup` and the handlers wired to
them. -/
structure SetupModels where
  dfmAllocs : List Nat
  vmManagerAllocs : List Nat
  handlers : List PageHandler
  deriving DecidableEq

/-- The model-construction part of `AppMenu.perform_setup` (appmenu.py
228-241): one `DesktopFileManager`, one `VMManager`, then the four page
handlers receiving them. -/
def perform_setup_models (firstId : Nat) : SetupModels :=
  let dfm := firstId
  let vmm := firstId + 1
  { dfmAllocs := [dfm],
    vmManagerAllocs := [vmm],
    handlers :=
      [ { name := "search_page", dfmRef := some dfm,
          vmManagerRef := some vmm },
        { name := "app_page", dfmRef := some dfm,
          vmManagerRef := some vmm },
        { name := "favorites_page", dfmRef := some dfm,
          vmManagerRef := some vmm },
        { name := "settings_page", dfmRef := some dfm,
          vmManagerRef := none } ] }

/-- Claim C8: `perform_setup` creates exactly one `DesktopFileManager` and
exactly one `VMManager`, and every page handler it registers receives those
same shared instances for the models it consumes — no page receives a
different copy of the VM or desktop-entry model. -/
theorem appMenu_single_canonical_model (firstId : Nat) :
    ((perform_setup_models firstId).dfmAllocs.length = 1) ∧
    ((perform_setup_models firstId).vmManagerAllocs.length = 1) ∧
    (∀ h ∈ (perform_setup_models firstId).handlers,
      h.dfmRef = some firstId ∧
      (h.vmManagerRef = some (firstId + 1) ∨ h.vmManagerRef = none)) := by
  refine ⟨rfl, rfl, ?_⟩
  intro h hh
  simp only [perform_setup_models, List.mem_cons,
    List.not_mem_nil, or_false] at hh
  rcases hh with rfl | rfl | rfl | rfl <;> simp

/-- Witness for C8: the settings page handler receives the shared
desktop-entry model and no VM model. -/
theorem appMenu_single_canonical_model_witness :
    PageHandler.dfmRef
        { name := "settings_page", dfmRef := some 0, vmManagerRef := none } =
      some 0 :=
  ((appMenu_single_canonical_model 0).2.2
    { name := "settings_page", dfmRef := some 0, vmManagerRef := none }
    (by simp [perform_setup_models])).1

end QubesMenu
